import Mathlib

/-!
Verification of the schema-migration executor in
`sea-orm-migration/src/manager.rs` (the `SchemaManager` facade, its
statement executor `exec_stmt`, the twelve mutation operations, and the
three inspection probes `has_table`, `has_column`, `has_index`).

The Rust code is shallowly embedded: the connection handle is a record of
response functions, every operation returns its result paired with a trace
of the calls it made on the connection, and Rust `panic!` is a distinct
constructor of the outcome type.  External collaborators (the `sea_query`
statement renderer and the `sea_schema` probe builders) are modelled as
opaque constructors recording exactly the data handed to them, as the spec
treats them as out-of-scope capabilities.
-/

namespace SeaOrmMigration

/-- The database backend enumeration (`sea_orm::DbBackend`): the fixed,
closed set of supported engines. -/
inductive DbBackend
  | MySql
  | Postgres
  | Sqlite
deriving DecidableEq, Repr

/-- The compile-time cargo feature flags that gate per-engine support in
`manager.rs` (`sqlx-mysql`, `sqlx-postgres`, `sqlx-sqlite`). -/
structure Features where
  mysql : Bool
  postgres : Bool
  sqlite : Bool
deriving DecidableEq, Repr

/-- Whether a feature combination yields a build accepted by the Rust
compiler.  In `manager.rs` the `DbBackend::Postgres` match arm of every
probe is itself gated by `#[cfg(feature = "sqlx-postgres")]`, so a build
without that feature has a non-exhaustive `match` over `DbBackend` and is
rejected at compile time. -/
def Features.compiles (f : Features) : Bool :=
  f.postgres

/-- The feature flag that corresponds to a backend. -/
def Features.featureFor (f : Features) : DbBackend → Bool
  | .MySql => f.mysql
  | .Postgres => f.postgres
  | .Sqlite => f.sqlite

/-- The error type (`sea_orm::DbErr`), abstracted to the variants the
manager distinguishes: `custom` is `DbErr::Custom` (used for the
probe-consistency errors), `tryGet` is a row-decode failure from
`try_get`, and `access` stands for any data-access error reported by the
underlying connection. -/
inductive DbErr
  | custom (msg : String)
  | tryGet (msg : String)
  | access (msg : String)
deriving DecidableEq, Repr

/-- The kinds of renderable migration statements accepted by the twelve
mutation operations. -/
inductive MigStmtKind
  | tableCreate
  | indexCreate
  | foreignKeyCreate
  | typeCreate
  | tableAlter
  | tableDrop
  | tableRename
  | tableTruncate
  | indexDrop
  | foreignKeyDrop
  | typeAlter
  | typeDrop
deriving DecidableEq, Repr

/-- A structured migration statement of a given kind.  The statement body
is opaque to the manager (it is built and rendered by `sea_query`), so it
is carried as an abstract payload. -/
structure KindedStmt (k : MigStmtKind) where
  payload : String
deriving DecidableEq, Repr

/-- `sea_query::TableCreateStatement`. -/
abbrev TableCreateStatement := KindedStmt .tableCreate

/-- `sea_query::IndexCreateStatement`. -/
abbrev IndexCreateStatement := KindedStmt .indexCreate

/-- `sea_query::ForeignKeyCreateStatement`. -/
abbrev ForeignKeyCreateStatement := KindedStmt .foreignKeyCreate

/-- `sea_query::extension::postgres::TypeCreateStatement`. -/
abbrev TypeCreateStatement := KindedStmt .typeCreate

/-- `sea_query::TableAlterStatement`. -/
abbrev TableAlterStatement := KindedStmt .tableAlter

/-- `sea_query::TableDropStatement`. -/
abbrev TableDropStatement := KindedStmt .tableDrop

/-- `sea_query::TableRenameStatement`. -/
abbrev TableRenameStatement := KindedStmt .tableRename

/-- `sea_query::TableTruncateStatement`. -/
abbrev TableTruncateStatement := KindedStmt .tableTruncate

/-- `sea_query::IndexDropStatement`. -/
abbrev IndexDropStatement := KindedStmt .indexDrop

/-- `sea_query::ForeignKeyDropStatement`. -/
abbrev ForeignKeyDropStatement := KindedStmt .foreignKeyDrop

/-- `sea_query::extension::postgres::TypeAlterStatement`. -/
abbrev TypeAlterStatement := KindedStmt .typeAlter

/-- `sea_query::extension::postgres::TypeDropStatement`. -/
abbrev TypeDropStatement := KindedStmt .typeDrop

/-- A structured existence-probe query produced by the `sea_schema`
collaborators (`MySql.has_table`, `Postgres.has_column`, ...).  The
constructor records which dialect built it and the target names, exactly
the data the manager hands to the builder. -/
inductive ProbeStmt
  | hasTable (engine : DbBackend) (table : String)
  | hasColumn (engine : DbBackend) (table column : String)
  | hasIndex (engine : DbBackend) (table index : String)
deriving DecidableEq, Repr

/-- What a rendered statement was rendered from: a migration statement of
some kind, or a probe query. -/
inductive StmtSource
  | mig (kind : MigStmtKind) (payload : String)
  | probe (p : ProbeStmt)
deriving DecidableEq, Repr

/-- Engine-specific command text produced by `builder.build(&stmt)`
(`sea_orm::Statement`).  Rendering is an external collaborator, so the
model records the backend the renderer was asked for together with the
structured statement it was given. -/
structure RenderedStmt where
  backend : DbBackend
  source : StmtSource
deriving DecidableEq, Repr

/-- The `StatementBuilder` capability of `sea_query`: turn a structured
statement into command text for a given backend (`builder.build(&stmt)`).
The law `build_backend` is the collaborator contract of the spec: the
renderer produces command text for exactly the engine it was asked for. -/
class StatementBuilder (S : Type) where
  build : DbBackend → S → RenderedStmt
  build_backend : ∀ (b : DbBackend) (s : S), (build b s).backend = b

instance : StatementBuilder (KindedStmt k) where
  build b s := ⟨b, .mig k s.payload⟩
  build_backend _ _ := rfl

/-- The value of one column of a returned row, as seen by `try_get`: either
a decodable boolean or some value of another shape. -/
inductive ColVal
  | boolean (b : Bool)
  | other
deriving DecidableEq, Repr

/-- A single result row (`sea_orm::QueryResult`) as a list of named
columns. -/
structure QueryRow where
  cols : List (String × ColVal)
deriving DecidableEq, Repr

/-- `res.try_get("", name)`: decode the column called `name` as a boolean;
a missing column or a non-boolean value is a decode (data-access) error. -/
def QueryRow.tryGet (r : QueryRow) (name : String) : Except DbErr Bool :=
  match r.cols.lookup name with
  | some (.boolean b) => .ok b
  | some .other => .error (DbErr.tryGet name)
  | none => .error (DbErr.tryGet name)

/-- The connection handle (`SchemaManagerConnection`): reports the active
backend, executes a rendered statement returning an affected-row count, and
runs a query returning at most one row.  The response functions model the
externally supplied connection collaborator. -/
structure SchemaManagerConnection where
  backend : DbBackend
  execRes : RenderedStmt → Except DbErr Nat
  queryOneRes : RenderedStmt → Except DbErr (Option QueryRow)

/-- `conn.get_database_backend()`. -/
def SchemaManagerConnection.get_database_backend
    (c : SchemaManagerConnection) : DbBackend :=
  c.backend

/-- One call made on the connection handle, recorded in an operation's
trace. -/
inductive ConnCall
  | getBackend
  | execute (s : RenderedStmt)
  | queryOne (s : RenderedStmt)
deriving DecidableEq, Repr

/-- The `SchemaManager` facade: it holds exactly the connection handle and
nothing else (in particular no cached copy of the engine identity). -/
structure SchemaManager where
  conn : SchemaManagerConnection

/-- `SchemaManager::new`: store the supplied connection handle. -/
def SchemaManager.new (conn : SchemaManagerConnection) : SchemaManager :=
  ⟨conn⟩

/-- `SchemaManager::get_database_backend`: delegate to the connection. -/
def SchemaManager.get_database_backend (m : SchemaManager) : DbBackend :=
  m.conn.get_database_backend

/-- `SchemaManager::get_connection`: return the held connection handle. -/
def SchemaManager.get_connection (m : SchemaManager) : SchemaManagerConnection :=
  m.conn

/-- `SchemaManager::exec_stmt`: read the backend from the connection,
render the statement for that backend, execute the rendered command once,
and discard the affected-row count (`.map(|_| ())`).  The second component
is the trace of connection calls, in order. -/
def SchemaManager.exec_stmt {S : Type} [StatementBuilder S]
    (m : SchemaManager) (stmt : S) : Except DbErr Unit × List ConnCall :=
  let builder := m.conn.get_database_backend
  let rendered := StatementBuilder.build builder stmt
  ((m.conn.execRes rendered).map fun _ => (),
    [ConnCall.getBackend, ConnCall.execute rendered])

/-- `SchemaManager::create_table`. -/
def SchemaManager.create_table (m : SchemaManager)
    (stmt : TableCreateStatement) : Except DbErr Unit × List ConnCall :=
  m.exec_stmt stmt

/-- `SchemaManager::create_index`. -/
def SchemaManager.create_index (m : SchemaManager)
    (stmt : IndexCreateStatement) : Except DbErr Unit × List ConnCall :=
  m.exec_stmt stmt

/-- `SchemaManager::create_foreign_key`. -/
def SchemaManager.create_foreign_key (m : SchemaManager)
    (stmt : ForeignKeyCreateStatement) : Except DbErr Unit × List ConnCall :=
  m.exec_stmt stmt

/-- `SchemaManager::create_type`. -/
def SchemaManager.create_type (m : SchemaManager)
    (stmt : TypeCreateStatement) : Except DbErr Unit × List ConnCall :=
  m.exec_stmt stmt

/-- `SchemaManager::alter_table`. -/
def SchemaManager.alter_table (m : SchemaManager)
    (stmt : TableAlterStatement) : Except DbErr Unit × List ConnCall :=
  m.exec_stmt stmt

/-- `SchemaManager::drop_table`. -/
def SchemaManager.drop_table (m : SchemaManager)
    (stmt : TableDropStatement) : Except DbErr Unit × List ConnCall :=
  m.exec_stmt stmt

/-- `SchemaManager::rename_table`. -/
def SchemaManager.rename_table (m : SchemaManager)
    (stmt : TableRenameStatement) : Except DbErr Unit × List ConnCall :=
  m.exec_stmt stmt

/-- `SchemaManager::truncate_table`. -/
def SchemaManager.truncate_table (m : SchemaManager)
    (stmt : TableTruncateStatement) : Except DbErr Unit × List ConnCall :=
  m.exec_stmt stmt

/-- `SchemaManager::drop_index`. -/
def SchemaManager.drop_index (m : SchemaManager)
    (stmt : IndexDropStatement) : Except DbErr Unit × List ConnCall :=
  m.exec_stmt stmt

/-- `SchemaManager::drop_foreign_key`. -/
def SchemaManager.drop_foreign_key (m : SchemaManager)
    (stmt : ForeignKeyDropStatement) : Except DbErr Unit × List ConnCall :=
  m.exec_stmt stmt

/-- `SchemaManager::alter_type`. -/
def SchemaManager.alter_type (m : SchemaManager)
    (stmt : TypeAlterStatement) : Except DbErr Unit × List ConnCall :=
  m.exec_stmt stmt

/-- `SchemaManager::drop_type`. -/
def SchemaManager.drop_type (m : SchemaManager)
    (stmt : TypeDropStatement) : Except DbErr Unit × List ConnCall :=
  m.exec_stmt stmt

/-- The result of selecting a probe builder for the active backend:
either a probe statement, a Rust `panic!` with its message (a feature that
is compiled out on a reachable arm), or `stuck` for the one case whose
match arm is removed by `cfg` so that the whole build is rejected by the
Rust compiler (`Postgres` with `sqlx-postgres` off). -/
inductive Dispatch (α : Type)
  | ok (a : α)
  | fatal (msg : String)
  | stuck
deriving DecidableEq, Repr

/-- The `match conn.get_database_backend()` dispatch inside the free
function `has_table`: each reachable arm yields the engine's probe builder
when its feature is on and panics when it is off; the `Postgres` arm is
itself cfg-gated. -/
def hasTableDispatch (f : Features) (table : String) :
    DbBackend → Dispatch ProbeStmt
  | .MySql =>
      if f.mysql then .ok (ProbeStmt.hasTable .MySql table)
      else .fatal "mysql feature is off"
  | .Postgres =>
      if f.postgres then .ok (ProbeStmt.hasTable .Postgres table)
      else .stuck
  | .Sqlite =>
      if f.sqlite then .ok (ProbeStmt.hasTable .Sqlite table)
      else .fatal "sqlite feature is off"

/-- The dispatch inside `SchemaManager::has_column`, of the same shape. -/
def hasColumnDispatch (f : Features) (table column : String) :
    DbBackend → Dispatch ProbeStmt
  | .MySql =>
      if f.mysql then .ok (ProbeStmt.hasColumn .MySql table column)
      else .fatal "mysql feature is off"
  | .Postgres =>
      if f.postgres then .ok (ProbeStmt.hasColumn .Postgres table column)
      else .stuck
  | .Sqlite =>
      if f.sqlite then .ok (ProbeStmt.hasColumn .Sqlite table column)
      else .fatal "sqlite feature is off"

/-- The dispatch inside `SchemaManager::has_index`, of the same shape. -/
def hasIndexDispatch (f : Features) (table index : String) :
    DbBackend → Dispatch ProbeStmt
  | .MySql =>
      if f.mysql then .ok (ProbeStmt.hasIndex .MySql table index)
      else .fatal "mysql feature is off"
  | .Postgres =>
      if f.postgres then .ok (ProbeStmt.hasIndex .Postgres table index)
      else .stuck
  | .Sqlite =>
      if f.sqlite then .ok (ProbeStmt.hasIndex .Sqlite table index)
      else .fatal "sqlite feature is off"

/-- The outcome of a probe call: a decoded boolean, an error result, a
Rust `panic!`, or `stuck` for a build the compiler rejects. -/
inductive Outcome (α : Type)
  | ok (a : α)
  | err (e : DbErr)
  | fatal (msg : String)
  | stuck
deriving DecidableEq, Repr

/-- The shared tail of every probe: render the probe for the backend read
from the connection, run `query_one`, treat zero rows as the given
`DbErr::Custom` consistency error, and decode the named boolean column
from a returned row. -/
def runProbe (conn : SchemaManagerConnection) (stmt : ProbeStmt)
    (noRowMsg colName : String) : Outcome Bool × List ConnCall :=
  let builder := conn.get_database_backend
  let rendered : RenderedStmt := ⟨builder, .probe stmt⟩
  let res : Outcome Bool :=
    match conn.queryOneRes rendered with
    | .error e => .err e
    | .ok none => .err (DbErr.custom noRowMsg)
    | .ok (some row) =>
        match row.tryGet colName with
        | .error e => .err e
        | .ok b => .ok b
  (res, [ConnCall.getBackend, ConnCall.getBackend, ConnCall.queryOne rendered])

/-- The crate-level free function `has_table(conn, table)`. -/
def has_table (f : Features) (conn : SchemaManagerConnection)
    (table : String) : Outcome Bool × List ConnCall :=
  match hasTableDispatch f table conn.get_database_backend with
  | .fatal msg => (.fatal msg, [ConnCall.getBackend])
  | .stuck => (.stuck, [ConnCall.getBackend])
  | .ok stmt => runProbe conn stmt "Failed to check table exists" "has_table"

/-- `SchemaManager::has_table`: delegate to the free function on the held
connection. -/
def SchemaManager.has_table (f : Features) (m : SchemaManager)
    (table : String) : Outcome Bool × List ConnCall :=
  SeaOrmMigration.has_table f m.conn table

/-- `SchemaManager::has_column`. -/
def SchemaManager.has_column (f : Features) (m : SchemaManager)
    (table column : String) : Outcome Bool × List ConnCall :=
  match hasColumnDispatch f table column m.conn.get_database_backend with
  | .fatal msg => (.fatal msg, [ConnCall.getBackend])
  | .stuck => (.stuck, [ConnCall.getBackend])
  | .ok stmt => runProbe m.conn stmt "Failed to check column exists" "has_column"

/-- `SchemaManager::has_index`. -/
def SchemaManager.has_index (f : Features) (m : SchemaManager)
    (table index : String) : Outcome Bool × List ConnCall :=
  match hasIndexDispatch f table index m.conn.get_database_backend with
  | .fatal msg => (.fatal msg, [ConnCall.getBackend])
  | .stuck => (.stuck, [ConnCall.getBackend])
  | .ok stmt => runProbe m.conn stmt "Failed to check index exists" "has_index"

/-- The `panic!` message produced in `manager.rs` when the feature gating
an engine's probe support is absent from the build. -/
def featureOffMsg : DbBackend → String
  | .MySql => "mysql feature is off"
  | .Postgres => "postgres feature is off"
  | .Sqlite => "sqlite feature is off"

/-- Whether a recorded connection call is an `execute` of a command. -/
def ConnCall.isExecute : ConnCall → Bool
  | .execute _ => true
  | _ => false

/-- A recorded connection call only ever carries the backend `b`:
`getBackend` carries none, and a rendered statement handed to `execute` or
`query_one` was rendered for `b`. -/
def ConnCall.usesBackend (b : DbBackend) : ConnCall → Prop
  | .getBackend => True
  | .execute r => r.backend = b
  | .queryOne r => r.backend = b

/-- The list of values observed by calling
`SchemaManager::get_database_backend` `n` times in a row. -/
def engineReads (m : SchemaManager) : Nat → List DbBackend
  | 0 => []
  | n + 1 => m.get_database_backend :: engineReads m n

/-- All three engine features compiled in. -/
def allFeatures : Features := ⟨true, true, true⟩

/-- A Sqlite connection whose `execute` succeeds with 7 affected rows and
whose `query_one` returns one row with all three probe columns true. -/
def connOk : SchemaManagerConnection :=
  ⟨.Sqlite, fun _ => .ok 7,
    fun _ => .ok (some ⟨[("has_table", ColVal.boolean true),
      ("has_column", ColVal.boolean true),
      ("has_index", ColVal.boolean true)]⟩)⟩

/-- A Sqlite connection whose `query_one` always returns zero rows. -/
def connNoRows : SchemaManagerConnection :=
  ⟨.Sqlite, fun _ => .ok 0, fun _ => .ok none⟩

/-- A Sqlite connection that fails every execute and query with the same
data-access error. -/
def connErr : SchemaManagerConnection :=
  ⟨.Sqlite, fun _ => .error (DbErr.access "boom"),
    fun _ => .error (DbErr.access "boom")⟩

/-- A MySql connection (used to exercise a build with the mysql feature
compiled out). -/
def connMySql : SchemaManagerConnection :=
  ⟨.MySql, fun _ => .ok 0, fun _ => .ok none⟩

/-- A Sqlite connection whose `query_one` returns one row whose only
column is a boolean `has_table`. -/
def connOneRow : SchemaManagerConnection :=
  ⟨.Sqlite, fun _ => .ok 0,
    fun _ => .ok (some ⟨[("has_table", ColVal.boolean true)]⟩)⟩

/-- Claim C3: for every renderable statement, `exec_stmt` first reads the
active engine identity from the connection handle, then renders the
statement for that identity, then submits the rendered command to the
connection exactly once, and returns unit on success, discarding the
affected-row count. -/
theorem exec_stmt_contract {S : Type} [StatementBuilder S]
    (m : SchemaManager) (stmt : S) :
    (m.exec_stmt stmt).2 =
      [ConnCall.getBackend,
        ConnCall.execute (StatementBuilder.build m.conn.get_database_backend stmt)] ∧
    (m.exec_stmt stmt).1 =
      (m.conn.execRes (StatementBuilder.build m.conn.get_database_backend stmt)).map
        (fun _ => ()) ∧
    ∀ n : Nat,
      m.conn.execRes (StatementBuilder.build m.conn.get_database_backend stmt) =
        .ok n →
      (m.exec_stmt stmt).1 = .ok () := by
  refine ⟨rfl, rfl, fun n h => ?_⟩
  simp [SchemaManager.exec_stmt, h, Except.map]

/-- Witness for C3: on a connection reporting 7 affected rows, executing a
concrete create-table statement returns unit. -/
theorem exec_stmt_contract_witness :
    ((SchemaManager.new connOk).exec_stmt
      (⟨"users"⟩ : TableCreateStatement)).1 = .ok () :=
  (exec_stmt_contract (SchemaManager.new connOk)
    (⟨"users"⟩ : TableCreateStatement)).2.2 7 rfl

/-- Claim C4: if the connection's `execute` fails, `exec_stmt` returns that
very error, and the trace still contains exactly one `execute` call: no
error is reinterpreted and nothing is retried. -/
theorem exec_stmt_error_verbatim {S : Type} [StatementBuilder S]
    (m : SchemaManager) (stmt : S) (e : DbErr)
    (h : m.conn.execRes (StatementBuilder.build m.conn.get_database_backend stmt) =
      .error e) :
    (m.exec_stmt stmt).1 = .error e ∧
    (m.exec_stmt stmt).2.countP ConnCall.isExecute = 1 := by
  refine ⟨?_, rfl⟩
  simp [SchemaManager.exec_stmt, h, Except.map]

/-- Witness for C4: a connection failing with a concrete data-access error
surfaces exactly that error from `exec_stmt`. -/
theorem exec_stmt_error_verbatim_witness :
    ((SchemaManager.new connErr).exec_stmt
      (⟨"users"⟩ : TableCreateStatement)).1 = .error (DbErr.access "boom") :=
  (exec_stmt_error_verbatim (SchemaManager.new connErr)
    (⟨"users"⟩ : TableCreateStatement) (DbErr.access "boom") rfl).1

/-- Claim C5: each of the twelve mutation operations takes one statement
of its matching kind, behaves exactly as `exec_stmt` on it, and its trace
contains exactly one executed command: no retry and no second command. -/
theorem mutation_ops_single_execute (m : SchemaManager)
    (s1 : TableCreateStatement) (s2 : IndexCreateStatement)
    (s3 : ForeignKeyCreateStatement) (s4 : TypeCreateStatement)
    (s5 : TableAlterStatement) (s6 : TableDropStatement)
    (s7 : TableRenameStatement) (s8 : TableTruncateStatement)
    (s9 : IndexDropStatement) (s10 : ForeignKeyDropStatement)
    (s11 : TypeAlterStatement) (s12 : TypeDropStatement) :
    (m.create_table s1 = m.exec_stmt s1 ∧
      (m.create_table s1).2.countP ConnCall.isExecute = 1) ∧
    (m.create_index s2 = m.exec_stmt s2 ∧
      (m.create_index s2).2.countP ConnCall.isExecute = 1) ∧
    (m.create_foreign_key s3 = m.exec_stmt s3 ∧
      (m.create_foreign_key s3).2.countP ConnCall.isExecute = 1) ∧
    (m.create_type s4 = m.exec_stmt s4 ∧
      (m.create_type s4).2.countP ConnCall.isExecute = 1) ∧
    (m.alter_table s5 = m.exec_stmt s5 ∧
      (m.alter_table s5).2.countP ConnCall.isExecute = 1) ∧
    (m.drop_table s6 = m.exec_stmt s6 ∧
      (m.drop_table s6).2.countP ConnCall.isExecute = 1) ∧
    (m.rename_table s7 = m.exec_stmt s7 ∧
      (m.rename_table s7).2.countP ConnCall.isExecute = 1) ∧
    (m.truncate_table s8 = m.exec_stmt s8 ∧
      (m.truncate_table s8).2.countP ConnCall.isExecute = 1) ∧
    (m.drop_index s9 = m.exec_stmt s9 ∧
      (m.drop_index s9).2.countP ConnCall.isExecute = 1) ∧
    (m.drop_foreign_key s10 = m.exec_stmt s10 ∧
      (m.drop_foreign_key s10).2.countP ConnCall.isExecute = 1) ∧
    (m.alter_type s11 = m.exec_stmt s11 ∧
      (m.alter_type s11).2.countP ConnCall.isExecute = 1) ∧
    (m.drop_type s12 = m.exec_stmt s12 ∧
      (m.drop_type s12).2.countP ConnCall.isExecute = 1) := by
  exact ⟨⟨rfl, rfl⟩, ⟨rfl, rfl⟩, ⟨rfl, rfl⟩, ⟨rfl, rfl⟩, ⟨rfl, rfl⟩,
    ⟨rfl, rfl⟩, ⟨rfl, rfl⟩, ⟨rfl, rfl⟩, ⟨rfl, rfl⟩, ⟨rfl, rfl⟩,
    ⟨rfl, rfl⟩, ⟨rfl, rfl⟩⟩

/-- Claim C8: `get_database_backend` is a pure read that delegates to the
connection: calling it any number of times returns the same value each
time, namely the backend the connection reports. -/
theorem get_database_backend_idempotent (m : SchemaManager) (n : Nat) :
    engineReads m n = List.replicate n m.conn.get_database_backend ∧
    m.get_database_backend = m.conn.get_database_backend := by
  refine ⟨?_, rfl⟩
  induction n with
  | zero => rfl
  | succ k ih =>
      simp [engineReads, List.replicate, ih, SchemaManager.get_database_backend]

/-- Claim C9: the method `SchemaManager::has_table` returns exactly what
the crate-level free function `has_table` returns on the manager's stored
connection and the same table name. -/
theorem has_table_method_refines_free (f : Features) (m : SchemaManager)
    (table : String) :
    m.has_table f table = has_table f m.get_connection table := rfl

/-- Claim C10: the manager's state is exactly the connection handle stored
at construction: `get_connection` returns that handle, and a manager is
nothing but its stored handle, so no operation (all of which take the
manager immutably) can reassign or drop it. -/
theorem get_connection_frame :
    (∀ c : SchemaManagerConnection, (SchemaManager.new c).get_connection = c) ∧
    (∀ m : SchemaManager, SchemaManager.new m.get_connection = m) :=
  ⟨fun _ => rfl, fun _ => rfl⟩

/-- Claim C1: when the connection's `query_one` returns zero rows, each of
the three inspection primitives returns its own probe-consistency error
(`DbErr::Custom` with a message naming the probe kind), the three errors
are pairwise distinct, and the operation never returns `Ok(false)`. -/
theorem probes_zero_rows_consistency_error (f : Features) (m : SchemaManager)
    (t c i : String) :
    (∀ stmt, hasTableDispatch f t m.conn.get_database_backend = .ok stmt →
      m.conn.queryOneRes ⟨m.conn.get_database_backend, .probe stmt⟩ = .ok none →
      (m.has_table f t).1 = .err (DbErr.custom "Failed to check table exists") ∧
      (m.has_table f t).1 ≠ .ok false) ∧
    (∀ stmt, hasColumnDispatch f t c m.conn.get_database_backend = .ok stmt →
      m.conn.queryOneRes ⟨m.conn.get_database_backend, .probe stmt⟩ = .ok none →
      (m.has_column f t c).1 = .err (DbErr.custom "Failed to check column exists") ∧
      (m.has_column f t c).1 ≠ .ok false) ∧
    (∀ stmt, hasIndexDispatch f t i m.conn.get_database_backend = .ok stmt →
      m.conn.queryOneRes ⟨m.conn.get_database_backend, .probe stmt⟩ = .ok none →
      (m.has_index f t i).1 = .err (DbErr.custom "Failed to check index exists") ∧
      (m.has_index f t i).1 ≠ .ok false) ∧
    DbErr.custom "Failed to check table exists" ≠
      DbErr.custom "Failed to check column exists" ∧
    DbErr.custom "Failed to check table exists" ≠
      DbErr.custom "Failed to check index exists" ∧
    DbErr.custom "Failed to check column exists" ≠
      DbErr.custom "Failed to check index exists" := by
  refine ⟨?_, ?_, ?_, by decide, by decide, by decide⟩
  · intro stmt h1 h2
    simp [SchemaManager.has_table, has_table, h1, runProbe, h2]
  · intro stmt h1 h2
    simp [SchemaManager.has_column, h1, runProbe, h2]
  · intro stmt h1 h2
    simp [SchemaManager.has_index, h1, runProbe, h2]

/-- Witness for C1: a connection whose `query_one` returns zero rows makes
`has_table` surface the table probe-consistency error. -/
theorem probes_zero_rows_consistency_error_witness :
    ((SchemaManager.new connNoRows).has_table allFeatures "users").1 =
      .err (DbErr.custom "Failed to check table exists") :=
  ((probes_zero_rows_consistency_error allFeatures
      (SchemaManager.new connNoRows) "users" "email" "idx").1
    (ProbeStmt.hasTable .Sqlite "users") rfl rfl).1

/-- Claim C2: in every feature combination the Rust compiler accepts,
dispatching any of the three inspection primitives for a backend whose
feature was compiled out hits the `panic!` path with the engine's
feature-off message, and never produces a data-access error result. -/
theorem probes_feature_off_fatal (f : Features) (m : SchemaManager)
    (t c i : String) (hc : f.compiles = true)
    (hoff : f.featureFor m.conn.get_database_backend = false) :
    (m.has_table f t).1 = .fatal (featureOffMsg m.conn.get_database_backend) ∧
    (m.has_column f t c).1 = .fatal (featureOffMsg m.conn.get_database_backend) ∧
    (m.has_index f t i).1 = .fatal (featureOffMsg m.conn.get_database_backend) ∧
    (∀ e, (m.has_table f t).1 ≠ .err e) ∧
    (∀ e, (m.has_column f t c).1 ≠ .err e) ∧
    (∀ e, (m.has_index f t i).1 ≠ .err e) := by
  obtain ⟨⟨b, ex, q⟩⟩ := m
  cases b with
  | MySql =>
      simp [Features.featureFor, SchemaManagerConnection.get_database_backend]
        at hoff
      simp [SchemaManager.has_table, has_table, SchemaManager.has_column,
        SchemaManager.has_index, hasTableDispatch, hasColumnDispatch,
        hasIndexDispatch, hoff, featureOffMsg,
        SchemaManagerConnection.get_database_backend]
  | Postgres =>
      simp [Features.compiles] at hc
      simp [Features.featureFor, SchemaManagerConnection.get_database_backend,
        hc] at hoff
  | Sqlite =>
      simp [Features.featureFor, SchemaManagerConnection.get_database_backend]
        at hoff
      simp [SchemaManager.has_table, has_table, SchemaManager.has_column,
        SchemaManager.has_index, hasTableDispatch, hasColumnDispatch,
        hasIndexDispatch, hoff, featureOffMsg,
        SchemaManagerConnection.get_database_backend]

/-- Witness for C2: with the mysql feature off (postgres on, so the build
compiles), `has_table` on a MySql connection hits the panic path. -/
theorem probes_feature_off_fatal_witness :
    ((SchemaManager.new connMySql).has_table ⟨false, true, true⟩ "users").1 =
      .fatal "mysql feature is off" :=
  (probes_feature_off_fatal ⟨false, true, true⟩ (SchemaManager.new connMySql)
    "users" "email" "idx" rfl rfl).1

/-- Claim C6: when the connection returns exactly one row, each inspection
primitive decodes the boolean column named after its probe kind and returns
it; when that column cannot be read as a boolean, it returns the decode
error rather than any boolean. -/
theorem probes_one_row_decode (f : Features) (m : SchemaManager)
    (t c i : String) (row : QueryRow) :
    (∀ stmt, hasTableDispatch f t m.conn.get_database_backend = .ok stmt →
      m.conn.queryOneRes ⟨m.conn.get_database_backend, .probe stmt⟩ =
        .ok (some row) →
      (∀ b, row.tryGet "has_table" = .ok b → (m.has_table f t).1 = .ok b) ∧
      (∀ e, row.tryGet "has_table" = .error e →
        (m.has_table f t).1 = .err e ∧ ∀ b, (m.has_table f t).1 ≠ .ok b)) ∧
    (∀ stmt, hasColumnDispatch f t c m.conn.get_database_backend = .ok stmt →
      m.conn.queryOneRes ⟨m.conn.get_database_backend, .probe stmt⟩ =
        .ok (some row) →
      (∀ b, row.tryGet "has_column" = .ok b → (m.has_column f t c).1 = .ok b) ∧
      (∀ e, row.tryGet "has_column" = .error e →
        (m.has_column f t c).1 = .err e ∧ ∀ b, (m.has_column f t c).1 ≠ .ok b)) ∧
    (∀ stmt, hasIndexDispatch f t i m.conn.get_database_backend = .ok stmt →
      m.conn.queryOneRes ⟨m.conn.get_database_backend, .probe stmt⟩ =
        .ok (some row) →
      (∀ b, row.tryGet "has_index" = .ok b → (m.has_index f t i).1 = .ok b) ∧
      (∀ e, row.tryGet "has_index" = .error e →
        (m.has_index f t i).1 = .err e ∧ ∀ b, (m.has_index f t i).1 ≠ .ok b)) := by
  refine ⟨?_, ?_, ?_⟩
  · intro stmt h1 h2
    refine ⟨fun b hb => ?_, fun e he => ?_⟩
    · simp [SchemaManager.has_table, has_table, h1, runProbe, h2, hb]
    · simp [SchemaManager.has_table, has_table, h1, runProbe, h2, he]
  · intro stmt h1 h2
    refine ⟨fun b hb => ?_, fun e he => ?_⟩
    · simp [SchemaManager.has_column, h1, runProbe, h2, hb]
    · simp [SchemaManager.has_column, h1, runProbe, h2, he]
  · intro stmt h1 h2
    refine ⟨fun b hb => ?_, fun e he => ?_⟩
    · simp [SchemaManager.has_index, h1, runProbe, h2, hb]
    · simp [SchemaManager.has_index, h1, runProbe, h2, he]

/-- Witness for C6: a single returned row whose `has_table` column holds
`true` makes `has_table` return `true`. -/
theorem probes_one_row_decode_witness :
    ((SchemaManager.new connOneRow).has_table allFeatures "users").1 =
      .ok true :=
  ((probes_one_row_decode allFeatures (SchemaManager.new connOneRow)
      "users" "email" "idx" ⟨[("has_table", ColVal.boolean true)]⟩).1
    (ProbeStmt.hasTable .Sqlite "users") rfl rfl).1 true rfl

/-- Every connection call recorded by `runProbe` carries the backend the
connection reports. -/
theorem runProbe_calls_use_backend (conn : SchemaManagerConnection)
    (stmt : ProbeStmt) (noRowMsg colName : String) (call : ConnCall)
    (hmem : call ∈ (runProbe conn stmt noRowMsg colName).2) :
    ConnCall.usesBackend conn.get_database_backend call := by
  simp [runProbe] at hmem
  rcases hmem with h | h <;> subst h <;> simp [ConnCall.usesBackend]

/-- Claim C7: for each public operation, every engine identity used for
dispatch or rendering during the call is the one the connection handle
reports at that moment (every recorded call carries that backend), and the
manager stores nothing besides the connection handle, so no separate copy
of the engine identity exists. -/
theorem engine_identity_never_cached (m : SchemaManager) :
    m.get_database_backend = m.conn.get_database_backend ∧
    (∀ {S : Type} [StatementBuilder S] (stmt : S) (call : ConnCall),
      call ∈ (m.exec_stmt stmt).2 →
      ConnCall.usesBackend m.conn.get_database_backend call) ∧
    (∀ f t (call : ConnCall), call ∈ (m.has_table f t).2 →
      ConnCall.usesBackend m.conn.get_database_backend call) ∧
    (∀ f t c (call : ConnCall), call ∈ (m.has_column f t c).2 →
      ConnCall.usesBackend m.conn.get_database_backend call) ∧
    (∀ f t i (call : ConnCall), call ∈ (m.has_index f t i).2 →
      ConnCall.usesBackend m.conn.get_database_backend call) ∧
    SchemaManager.new m.conn = m := by
  refine ⟨rfl, ?_, ?_, ?_, ?_, rfl⟩
  · intro S _ stmt call hmem
    simp [SchemaManager.exec_stmt] at hmem
    rcases hmem with h | h <;> subst h
    · simp [ConnCall.usesBackend]
    · simpa [ConnCall.usesBackend] using StatementBuilder.build_backend
        m.conn.get_database_backend stmt
  · intro f t call hmem
    cases hd : hasTableDispatch f t m.conn.get_database_backend with
    | ok stmt =>
        rw [SchemaManager.has_table, has_table, hd] at hmem
        exact runProbe_calls_use_backend m.conn stmt _ _ call hmem
    | fatal msg =>
        rw [SchemaManager.has_table, has_table, hd] at hmem
        simp at hmem
        subst hmem
        simp [ConnCall.usesBackend]
    | stuck =>
        rw [SchemaManager.has_table, has_table, hd] at hmem
        simp at hmem
        subst hmem
        simp [ConnCall.usesBackend]
  · intro f t c call hmem
    cases hd : hasColumnDispatch f t c m.conn.get_database_backend with
    | ok stmt =>
        rw [SchemaManager.has_column, hd] at hmem
        exact runProbe_calls_use_backend m.conn stmt _ _ call hmem
    | fatal msg =>
        rw [SchemaManager.has_column, hd] at hmem
        simp at hmem
        subst hmem
        simp [ConnCall.usesBackend]
    | stuck =>
        rw [SchemaManager.has_column, hd] at hmem
        simp at hmem
        subst hmem
        simp [ConnCall.usesBackend]
  · intro f t i call hmem
    cases hd : hasIndexDispatch f t i m.conn.get_database_backend with
    | ok stmt =>
        rw [SchemaManager.has_index, hd] at hmem
        exact runProbe_calls_use_backend m.conn stmt _ _ call hmem
    | fatal msg =>
        rw [SchemaManager.has_index, hd] at hmem
        simp at hmem
        subst hmem
        simp [ConnCall.usesBackend]
    | stuck =>
        rw [SchemaManager.has_index, hd] at hmem
        simp at hmem
        subst hmem
        simp [ConnCall.usesBackend]

/-- Witness for C7: the one executed command of a concrete `exec_stmt`
call was rendered for the backend the connection reports. -/
theorem engine_identity_never_cached_witness :
    ConnCall.usesBackend DbBackend.Sqlite
      (ConnCall.execute ⟨DbBackend.Sqlite, StmtSource.mig .tableCreate "users"⟩) :=
  (engine_identity_never_cached (SchemaManager.new connOk)).2.1
    (⟨"users"⟩ : TableCreateStatement)
    (ConnCall.execute ⟨DbBackend.Sqlite, StmtSource.mig .tableCreate "users"⟩)
    (by decide)

end SeaOrmMigration
